import Mathlib

/-!
Verification of the Peteat realtime-messaging subsystem.

Shallow embedding of:
- the Conversation and Message mongoose schemas (Conversation model, Message
  model with its pre-save find-or-create hook);
- the Socket.IO server handlers in backend/socket.js (`sendMessage`,
  `newMessage`, `markRead`, the presence map and the disconnect handler);
- the HTTP message routes in backend/routes/messages.js (POST /, PUT
  /mark-read, GET /conversations/:conversationId/messages);
- the client socket manager in utils/socket.ts (reconnect backoff and the
  listener registry).

Stores are lists of records; Mongo update operations become list maps; the
handlers are pure functions from payload and store to store plus the list of
emitted socket events.
-/

namespace Peteat

/-- A persisted Message document (Message schema in the models file):
`conversation` is nullable, `content` defaults to the empty string, `read`
defaults to false and `readAt` to null; `attachments` is a list of URIs.
Timestamps are modelled as naturals. -/
structure Msg where
  id : Nat
  conversation : Option Nat
  sender : String
  receiver : String
  content : String
  attachments : List String
  read : Bool
  readAt : Option Nat
  timestamp : Nat
deriving DecidableEq, Repr

/-- A persisted Conversation document (Conversation schema): two participants,
last-message preview fields, and an `unreadCount` defaulting to 0.
`lastMessageText` is a schema alias writing through to `lastMessage`, so the
model keeps a single field. -/
structure Conv where
  id : Nat
  participants : List String
  lastMessage : String
  lastMessageFrom : Option String
  lastMessageAt : Nat
  unreadCount : Nat
deriving DecidableEq, Repr

/-- The document store: the Message and Conversation collections plus fresh-id
counters for inserts. -/
structure Store where
  messages : List Msg
  conversations : List Conv
  nextMsgId : Nat
  nextConvId : Nat
deriving DecidableEq, Repr

def emptyStore : Store := ⟨[], [], 0, 0⟩

/-- mongoose.Types.ObjectId.isValid on a string: a 24-character hex string, or
any 12-character string (interpreted as 12 raw bytes). -/
def isHexDigit (c : Char) : Bool :=
  c.isDigit || (('a' ≤ c) && (c ≤ 'f')) || (('A' ≤ c) && (c ≤ 'F'))

def isValidObjectId (s : String) : Bool :=
  (s.length == 24 && s.data.all isHexDigit) || s.length == 12

/-- JS `String.prototype.trim()`: strip leading and trailing whitespace. -/
def strTrim (s : String) : String :=
  ⟨((s.data.dropWhile Char.isWhitespace).reverse.dropWhile Char.isWhitespace).reverse⟩

/-- Lexicographic comparison of strings by character code, the default JS
`Array.prototype.sort()` order for string elements. -/
def charListLe : List Char → List Char → Bool
  | [], _ => true
  | _ :: _, [] => false
  | a :: as, b :: bs =>
    if a.val < b.val then true
    else if b.val < a.val then false
    else charListLe as bs

/- ### Presence registry (socket.js: `onlineUsers`, a JS Map) -/

/-- JS `Map.set`: overwrite the value if the key is present, else append. -/
def mapSet (k : String) (v : Nat) (m : List (String × Nat)) : List (String × Nat) :=
  if m.any (fun p => p.1 == k) then
    m.map (fun p => if p.1 == k then (k, v) else p)
  else m ++ [(k, v)]

/-- JS `Map.delete` keyed by the user id only — the disconnect handler calls
`onlineUsers.delete(userId)` without comparing the stored socket id. -/
def mapDelete (k : String) (m : List (String × Nat)) : List (String × Nat) :=
  m.filter (fun p => !(p.1 == k))

/-- JS `Map.get`. -/
def mapGet (k : String) (m : List (String × Nat)) : Option Nat :=
  (m.find? (fun p => p.1 == k)).map (·.2)

/-- Connection handler effect on the presence map (socket.js):
`onlineUsers.set(userId, socket.id)`. -/
def presenceOnConnect (userId : String) (socketId : Nat)
    (m : List (String × Nat)) : List (String × Nat) :=
  mapSet userId socketId m

/-- Disconnect handler effect on the presence map (socket.js):
`onlineUsers.delete(userId)` — unconditional, keyed by user id alone. -/
def presenceOnDisconnect (userId : String)
    (m : List (String × Nat)) : List (String × Nat) :=
  mapDelete userId m

/- ### Conversation lookup and creation primitives -/

/-- The Mongo filter `{ participants: { $all: [a, b], $size: 2 } }` used by all
conversation-for-pair lookups: matches a document whose participant array has
length two and contains both ids, regardless of stored order. -/
def matchesPair (a b : String) (c : Conv) : Bool :=
  c.participants.length == 2 && c.participants.contains a && c.participants.contains b

/-- `Conversation.findOne({participants: {$all: [a,b], $size: 2}})`. -/
def findConversationFor (a b : String) (convs : List Conv) : Option Conv :=
  convs.find? (matchesPair a b)

/-- A freshly inserted Conversation with schema defaults (`unreadCount` 0,
`lastMessageAt` defaulting to now, no preview). -/
def newConversation (id : Nat) (parts : List String) (now : Nat) : Conv :=
  { id := id, participants := parts, lastMessage := "", lastMessageFrom := none,
    lastMessageAt := now, unreadCount := 0 }

/-- `[sender, receiver].sort()` as used by POST / in routes/messages.js. -/
def sortPair (s r : String) : List String :=
  if charListLe s.data r.data then [s, r] else [r, s]

/-- Number of Conversation documents matching the unordered pair. -/
def countConversationsFor (a b : String) (convs : List Conv) : Nat :=
  (convs.filter (matchesPair a b)).length

/- ### Message save with the pre-save hook -/

/-- The Message pre-save hook: when `conversation` is unset, findOne the
conversation for `{sender, receiver}` and create it if absent, then set the
message's `conversation` field. The findOne and the save are two separate
store calls in the source. -/
def preSaveHook (m : Msg) (now : Nat) (st : Store) : Store × Msg :=
  match m.conversation with
  | some _ => (st, m)
  | none =>
    match findConversationFor m.sender m.receiver st.conversations with
    | some c => (st, { m with conversation := some c.id })
    | none =>
      ({ st with
          conversations := st.conversations ++
            [newConversation st.nextConvId [m.sender, m.receiver] now],
          nextConvId := st.nextConvId + 1 },
       { m with conversation := some st.nextConvId })

/-- `message.save()`: run the pre-save hook, assign a fresh id, append to the
Message collection. -/
def saveMessage (m : Msg) (now : Nat) (st : Store) : Store × Msg :=
  let hooked := preSaveHook m now st
  let st1 := hooked.1
  let saved := { hooked.2 with id := st1.nextMsgId }
  ({ st1 with messages := st1.messages ++ [saved], nextMsgId := st1.nextMsgId + 1 },
   saved)

/-- `Conversation.findOneAndUpdate(pair filter, {$set: preview fields,
$setOnInsert: participants}, {upsert: true})` from the `sendMessage` handler —
a single atomic store operation. Returns the updated store and the matched or
inserted conversation's id. -/
def upsertConversation (s r preview : String) (now : Nat) (st : Store) : Store × Nat :=
  match findConversationFor s r st.conversations with
  | some c =>
    ({ st with conversations := st.conversations.map (fun c2 =>
        if c2.id = c.id then
          { c2 with lastMessage := preview, lastMessageFrom := some s,
                    lastMessageAt := now }
        else c2) }, c.id)
  | none =>
    ({ st with
        conversations := st.conversations ++
          [{ id := st.nextConvId, participants := [s, r], lastMessage := preview,
             lastMessageFrom := some s, lastMessageAt := now, unreadCount := 0 }],
        nextConvId := st.nextConvId + 1 },
     st.nextConvId)

/- ### Socket emissions -/

/-- Where an emission goes: `io.to(socketId)`, `io.to(room)`, or
`socket.emit` back to the sender's own connection. -/
inductive Target where
  | socketOf (sid : Nat)
  | room (userId : String)
  | senderSocket
deriving DecidableEq, Repr

/-- The payload shapes the handlers emit. -/
inductive Payload where
  | errMsg (text : String)
  | message (m : Msg)
  | convMessage (cid : Nat) (m : Msg)
  | convSummary (cid : Nat) (userId : String) (unread : Nat)
deriving DecidableEq, Repr

structure Emission where
  event : String
  target : Target
  payload : Payload
deriving DecidableEq, Repr

/-- JS falsiness of the `receiver` payload field: absent or empty string. -/
def receiverFalsy : Option String → Bool
  | none => true
  | some r => r == ""

/- ### The `sendMessage` handler (direct-send dialect, socket.js) -/

/-- The preview text computed by the `sendMessage` handler:
`content && content.trim() !== '' ? content : (attachments.length > 0 ?
'📎 Attachment' : '')`. -/
def sentPreview (content : String) (attachments : List String) : String :=
  if content ≠ "" ∧ strTrim content ≠ "" then content
  else if attachments.length > 0 then "📎 Attachment" else ""

/-- Success path of the `sendMessage` handler, after validation: save the
message (running the pre-save hook), compute the preview, upsert the
conversation, then emit: `receiveMessage`+`newMessage` to the recipient's
socket if the presence map has it (else to the recipient's room),
`messageSaved` to the sender, `conversationUpdated` to sender, direct socket
and room, then `newMessage` to the sender and, unconditionally, to the
recipient's room. -/
def sendMessageValid (userId r content : String) (attachments : List String)
    (onlineUsers : List (String × Nat)) (now : Nat) (st : Store) :
    Store × List Emission :=
  let sres := saveMessage
    ⟨0, none, userId, r, content, attachments, false, none, now⟩ now st
  let st1 := sres.1
  let saved := sres.2
  let ures := upsertConversation userId r (sentPreview content attachments) now st1
  let st2 := ures.1
  let cid := ures.2
  let rsid := mapGet r onlineUsers
  let deliver :=
    match rsid with
    | some sid =>
      [⟨"receiveMessage", .socketOf sid, .message saved⟩,
       ⟨"newMessage", .socketOf sid, .convMessage cid saved⟩]
    | none =>
      [⟨"receiveMessage", .room r, .message saved⟩,
       ⟨"newMessage", .room r, .convMessage cid saved⟩]
  let tail :=
    [⟨"messageSaved", .senderSocket, .message saved⟩,
     ⟨"conversationUpdated", .senderSocket, .convSummary cid r 0⟩] ++
    (match rsid with
     | some sid => [⟨"conversationUpdated", .socketOf sid, .convSummary cid userId 1⟩]
     | none => []) ++
    [⟨"conversationUpdated", .room r, .convSummary cid userId 1⟩,
     ⟨"newMessage", .senderSocket, .convMessage cid saved⟩,
     ⟨"newMessage", .room r, .convMessage cid saved⟩]
  (st2, deliver ++ tail)

/-- The `sendMessage` handler: validation (`!receiver ||
(content.trim()==='' && attachments.length===0)`, then the ObjectId format
check) emitting an `error` event with no store change, else the success
path. -/
def sendMessage (userId : String) (receiver : Option String) (content : String)
    (attachments : List String) (onlineUsers : List (String × Nat)) (now : Nat)
    (st : Store) : Store × List Emission :=
  match receiver with
  | none =>
    (st, [⟨"error", .senderSocket,
          .errMsg "receiver and either content or attachments is required"⟩])
  | some r =>
    if r = "" ∨ (strTrim content = "" ∧ attachments = []) then
      (st, [⟨"error", .senderSocket,
            .errMsg "receiver and either content or attachments is required"⟩])
    else if isValidObjectId r = false then
      (st, [⟨"error", .senderSocket, .errMsg "Invalid receiver ID format"⟩])
    else
      sendMessageValid userId r content attachments onlineUsers now st

/- ### The `newMessage` handler (conversation-centric dialect, socket.js) -/

/-- The `newMessage` handler: validate `conversationId` and `text`, look the
conversation up by id (not-found error aborts with no writes), pick the
participant who is not the caller, save the message with `conversation`
already set (so the pre-save hook does not fire), then
`findByIdAndUpdate` the conversation: preview fields plus
`$inc: {unreadCount: 1}`; finally the dual direct-socket/room emissions. -/
def newMessageHandler (userId : String) (conversationId : Option Nat)
    (text : String) (onlineUsers : List (String × Nat)) (now : Nat)
    (st : Store) : Store × List Emission :=
  match conversationId with
  | none =>
    (st, [⟨"error", .senderSocket, .errMsg "Conversation ID and text are required"⟩])
  | some cid =>
    if text = "" ∨ strTrim text = "" then
      (st, [⟨"error", .senderSocket, .errMsg "Conversation ID and text are required"⟩])
    else
      match st.conversations.find? (fun c => c.id == cid) with
      | none => (st, [⟨"error", .senderSocket, .errMsg "Conversation not found"⟩])
      | some conv =>
        match conv.participants.find? (fun p => !(p == userId)) with
        | none =>
          (st, [⟨"error", .senderSocket,
                .errMsg "Recipient not found in conversation"⟩])
        | some recipient =>
          let sres := saveMessage
            ⟨0, some cid, userId, recipient, strTrim text, [], false, none, now⟩ now st
          let st1 := sres.1
          let saved := sres.2
          let st2 := { st1 with conversations := st1.conversations.map (fun c =>
            if c.id = cid then
              { c with lastMessage := strTrim text, lastMessageFrom := some userId,
                       lastMessageAt := now, unreadCount := c.unreadCount + 1 }
            else c) }
          let rsid := mapGet recipient onlineUsers
          let ems :=
            [⟨"newMessage", .senderSocket, .convMessage cid saved⟩] ++
            (match rsid with
             | some sid =>
               [⟨"newMessage", .socketOf sid, .convMessage cid saved⟩,
                ⟨"receiveMessage", .socketOf sid, .message saved⟩]
             | none => []) ++
            [⟨"newMessage", .room recipient, .convMessage cid saved⟩,
             ⟨"receiveMessage", .room recipient, .message saved⟩,
             ⟨"messageSaved", .senderSocket, .message saved⟩,
             ⟨"conversationUpdated", .senderSocket, .convSummary cid recipient 0⟩] ++
            (match rsid with
             | some sid =>
               [⟨"conversationUpdated", .socketOf sid, .convSummary cid userId 1⟩]
             | none => []) ++
            [⟨"conversationUpdated", .room recipient, .convSummary cid userId 1⟩]
          (st2, ems)

/- ### Read marking -/

/-- Socket `markRead` handler: `Message.updateMany({_id: {$in: messageIds}},
{$set: {read: true, readAt: new Date()}})`. -/
def markReadSocket (messageIds : List Nat) (now : Nat) (st : Store) : Store :=
  { st with messages := st.messages.map (fun m =>
      if m.id ∈ messageIds then { m with read := true, readAt := some now }
      else m) }

/-- HTTP `PUT /mark-read`: reject an empty id list with a 400 (second
component false), else `Message.updateMany({_id: {$in: messageIds}},
{$set: {read: true}})` — `readAt` is not written. -/
def markReadHTTP (messageIds : List Nat) (st : Store) : Store × Bool :=
  if messageIds.isEmpty then (st, false)
  else
    ({ st with messages := st.messages.map (fun m =>
        if m.id ∈ messageIds then { m with read := true } else m) }, true)

/- ### Conversation history fetch (GET /conversations/:conversationId/messages) -/

/-- The history fetch: verify the conversation exists with the caller as a
participant (else a 404 error and no writes); collect the conversation's
messages for the response; `updateMany` marking `read`/`readAt` on messages of
the conversation that are not the caller's and are still unread
(`read: false` is part of the filter); `findByIdAndUpdate` resetting the
conversation's `unreadCount` to 0. -/
def fetchConversationMessages (uid : String) (cid : Nat) (now : Nat)
    (st : Store) : Store × Except String (List Msg) :=
  match st.conversations.find? (fun c => c.id == cid && c.participants.contains uid) with
  | none => (st, .error "Conversation not found or you are not a participant")
  | some _ =>
    let msgs := st.messages.filter (fun m => m.conversation == some cid)
    let messages2 := st.messages.map (fun m =>
      if m.conversation = some cid ∧ m.sender ≠ uid ∧ m.read = false then
        { m with read := true, readAt := some now }
      else m)
    let convs2 := st.conversations.map (fun c =>
      if c.id = cid then { c with unreadCount := 0 } else c)
    ({ st with messages := messages2, conversations := convs2 }, .ok msgs)

/- ### Interleaved find-or-create (for the duplicate-conversation race) -/

/-- Two concurrent runs (call them A and B) of the find-then-create block of
POST / in routes/messages.js (`Conversation.findOne` on the pair, then
`new Conversation(...).save()` when absent — the same shape as the Message
pre-save hook), under the schedule: A findOne, B findOne, A conditional
insert, B conditional insert. Each findOne and each save is a separately
awaited store call in the source, so this interleaving is admitted. -/
def interleavedFindThenCreate (s r : String) (now : Nat)
    (convs : List Conv) : List Conv :=
  let foundA := (findConversationFor s r convs).isSome
  let foundB := (findConversationFor s r convs).isSome
  let afterA := if foundA then convs
                else convs ++ [newConversation 0 (sortPair s r) now]
  let afterB := if foundB then afterA
                else afterA ++ [newConversation 1 (sortPair s r) now]
  afterB

/-- Two runs of the `sendMessage` handler's atomic
`Conversation.findOneAndUpdate(..., {upsert: true})`: each run is a single
store operation, so the two runs can only execute one after the other. -/
def interleavedUpsert (s r preview : String) (now : Nat) (st : Store) : Store :=
  (upsertConversation s r preview now (upsertConversation s r preview now st).1).1

/- ### Client socket manager (utils/socket.ts) -/

inductive ConnStatus where
  | connected
  | disconnected
  | connecting
  | errored
deriving DecidableEq, Repr

def MAX_RECONNECT_ATTEMPTS : Nat := 5
def RECONNECT_INTERVAL : Nat := 1000

/-- The outcome of `tryFallbackUrls()` — whether some fallback URL accepted a
probe connection. This is the environment's input to `attemptReconnect`. -/
inductive FallbackOutcome where
  | success
  | failure
deriving DecidableEq, Repr

/-- The manager state relevant to reconnection: the attempt counter, the
pending reconnect timer (holding its delay when set), the connection status,
and whether a socket object currently exists (so its `disconnect` and
`connect_error` handlers can still fire). -/
structure ManagerState where
  reconnectAttempts : Nat
  reconnectTimer : Option Nat
  connectionStatus : ConnStatus
  socketExists : Bool
deriving DecidableEq, Repr

/-- `attemptReconnect()`: at or above the cap, run `tryFallbackUrls()` — on
success reset the counter and call `initializeSocket()` (fresh socket,
status connecting); on failure set the error status and `cleanupSocket()`
(socket null, timer cleared, status ends disconnected), scheduling nothing.
Below the cap, increment the counter and schedule a timer with delay
`RECONNECT_INTERVAL * 2 ^ (attempts - 1)` for the new attempt number. -/
def attemptReconnect (fb : FallbackOutcome) (s : ManagerState) : ManagerState :=
  if s.reconnectAttempts ≥ MAX_RECONNECT_ATTEMPTS then
    match fb with
    | .success =>
      { reconnectAttempts := 0, reconnectTimer := none,
        connectionStatus := .connecting, socketExists := true }
    | .failure =>
      { reconnectAttempts := s.reconnectAttempts, reconnectTimer := none,
        connectionStatus := .disconnected, socketExists := false }
  else
    { s with
        reconnectAttempts := s.reconnectAttempts + 1,
        reconnectTimer := some (RECONNECT_INTERVAL * 2 ^ s.reconnectAttempts) }

/-- The manager can still reach a connection attempt on its own (without a
fresh external `initializeSocket`/`getSocket` call): either a reconnect timer
is pending, or a socket object exists whose `disconnect`/`connect_error`
handlers can fire and call `attemptReconnect`. -/
def canAutonomouslyRetry (s : ManagerState) : Bool :=
  s.reconnectTimer.isSome || s.socketExists

/- ### Client listener registry (utils/socket.ts) -/

/-- One entry of `socketEventListeners`: event name, the callback (identified
by a number, standing for JS function identity) and the generated listener id. -/
structure Listener where
  event : String
  callback : Nat
  lid : Nat
deriving DecidableEq, Repr

/-- Client-side listener bookkeeping: the manager's registry, whether a socket
object exists, the handlers actually attached to that socket (in attach
order), and the reconnect counter. -/
structure ClientSocketState where
  registry : List Listener
  socketExists : Bool
  attached : List (String × Nat)
  reconnectAttempts : Nat
deriving DecidableEq, Repr

/-- `addSocketListener(event, callback)`: push onto the registry with a fresh
id; attach to the socket immediately only if one exists. -/
def addSocketListener (ev : String) (cb : Nat) (newId : Nat)
    (s : ClientSocketState) : ClientSocketState :=
  { s with
      registry := s.registry ++ [⟨ev, cb, newId⟩],
      attached := if s.socketExists then s.attached ++ [(ev, cb)] else s.attached }

/-- `removeSocketListenerById(listenerId)`: drop the first registry entry with
that id, and `socket.off(event, callback)` when a socket exists. -/
def removeSocketListenerById (lid : Nat) (s : ClientSocketState) :
    ClientSocketState :=
  match s.registry.find? (fun l => l.lid == lid) with
  | none => s
  | some l =>
    { s with
        registry := s.registry.eraseP (fun x => x.lid == lid),
        attached := if s.socketExists then
            s.attached.filter (fun p => !(p.1 == l.event && p.2 == l.callback))
          else s.attached }

/-- The `connect` handler (which only ever fires on an existing socket):
reset `reconnectAttempts` to 0 and run `reapplyEventListeners()` — first
`socket.off(event)` for every registered event (removing all handlers attached
for those events), then `socket.on(event, callback)` for every registry entry
in order. -/
def connectEvent (s : ClientSocketState) : ClientSocketState :=
  { s with
      reconnectAttempts := 0,
      attached :=
        (s.attached.filter (fun p => !(s.registry.any (fun l => l.event == p.1)))) ++
        s.registry.map (fun l => (l.event, l.callback)) }

/- ### Concrete fixtures used by witnesses and counterexamples -/

/-- A well-formed 12-character user id (accepted by `isValidObjectId`). -/
def uidA : String := "aaaaaaaaaaaa"

/-- A second well-formed 12-character user id. -/
def uidB : String := "bbbbbbbbbbbb"

/-- A conversation between "p1" and "p2" with a pending unread count. -/
def convFetch : Conv := ⟨0, ["p1", "p2"], "", none, 0, 3⟩

/-- An unread message from "p2" to "p1" inside `convFetch`. -/
def msgUnread : Msg := ⟨0, some 0, "p2", "p1", "hi", [], false, none, 0⟩

def storeFetch : Store := ⟨[msgUnread], [convFetch], 1, 1⟩

/-- `storeFetch` after the HTTP mark-read route ran on the message: `read` is
true but `readAt` is still null. -/
def storeFetchRead : Store := (markReadHTTP [0] storeFetch).1

/-- A conversation between `uidA` and `uidB` with some existing unread count. -/
def convDlg : Conv := ⟨7, [uidA, uidB], "old", none, 0, 2⟩

def storeDlg : Store := ⟨[], [convDlg], 0, 8⟩

/-- Client listener-registry state built by the manager's own operations: one
listener added while no socket existed, the socket then created, and a second
listener added on the live socket. -/
def clientC8 : ClientSocketState :=
  addSocketListener "conversationUpdated" 8 1
    { addSocketListener "newMessage" 7 0 ⟨[], false, [], 3⟩ with socketExists := true }

/- ### Helper lemmas -/

theorem preSaveHook_messages (m : Msg) (now : Nat) (st : Store) :
    (preSaveHook m now st).1.messages = st.messages := by
  rcases hmc : m.conversation with _ | cid
  · rcases hf : findConversationFor m.sender m.receiver st.conversations with _ | c
    · simp [preSaveHook, hmc, hf]
    · simp [preSaveHook, hmc, hf]
  · simp [preSaveHook, hmc]

theorem preSaveHook_fields (m : Msg) (now : Nat) (st : Store) :
    (preSaveHook m now st).2.sender = m.sender ∧
    (preSaveHook m now st).2.receiver = m.receiver ∧
    (preSaveHook m now st).2.content = m.content ∧
    (preSaveHook m now st).2.attachments = m.attachments := by
  rcases hmc : m.conversation with _ | cid
  · rcases hf : findConversationFor m.sender m.receiver st.conversations with _ | c
    · simp [preSaveHook, hmc, hf]
    · simp [preSaveHook, hmc, hf]
  · simp [preSaveHook, hmc]

theorem preSaveHook_conv_some (m : Msg) (now : Nat) (st : Store) (cid : Nat)
    (hmc : m.conversation = some cid) :
    (preSaveHook m now st).1 = st := by
  simp [preSaveHook, hmc]

theorem preSaveHook_conv_found (m : Msg) (now : Nat) (st : Store) (c : Conv)
    (hmc : m.conversation = none)
    (hf : findConversationFor m.sender m.receiver st.conversations = some c) :
    (preSaveHook m now st).1 = st := by
  simp [preSaveHook, hmc, hf]

theorem saveMessage_messages (m : Msg) (now : Nat) (st : Store) :
    (saveMessage m now st).1.messages
      = st.messages ++ [(saveMessage m now st).2] := by
  simp [saveMessage, preSaveHook_messages]

theorem saveMessage_conversations (m : Msg) (now : Nat) (st : Store) :
    (saveMessage m now st).1.conversations
      = (preSaveHook m now st).1.conversations := rfl

theorem saveMessage_fields (m : Msg) (now : Nat) (st : Store) :
    (saveMessage m now st).2.sender = m.sender ∧
    (saveMessage m now st).2.receiver = m.receiver ∧
    (saveMessage m now st).2.content = m.content ∧
    (saveMessage m now st).2.attachments = m.attachments := by
  have h := preSaveHook_fields m now st
  simp only [saveMessage]
  exact ⟨h.1, h.2.1, h.2.2.1, h.2.2.2⟩

theorem upsertConversation_messages (s r p : String) (now : Nat) (st : Store) :
    (upsertConversation s r p now st).1.messages = st.messages := by
  rcases h : findConversationFor s r st.conversations with _ | c <;>
    simp [upsertConversation, h]

theorem count_one_of_nodup {α : Type} [BEq α] [LawfulBEq α] {l : List α} {a : α}
    (hnd : l.Nodup) (ha : a ∈ l) : l.count a = 1 := by
  induction l with
  | nil => cases ha
  | cons x xs ih =>
    rcases List.mem_cons.mp ha with h | h
    · subst h
      rw [List.count_cons_self,
          List.count_eq_zero.mpr (List.nodup_cons.mp hnd).1]
    · have hx : a ≠ x := by
        rintro rfl
        exact (List.nodup_cons.mp hnd).1 h
      rw [List.count_cons_of_ne hx]
      exact ih (List.nodup_cons.mp hnd).2 h

theorem sendMessage_valid_red (userId r content : String)
    (attachments : List String) (onlineUsers : List (String × Nat)) (now : Nat)
    (st : Store) (hr : r ≠ "") (hc : ¬(strTrim content = "" ∧ attachments = []))
    (hv : isValidObjectId r = true) :
    sendMessage userId (some r) content attachments onlineUsers now st
      = sendMessageValid userId r content attachments onlineUsers now st := by
  have h1 : ¬(r = "" ∨ (strTrim content = "" ∧ attachments = [])) := by
    rintro (h | h)
    · exact hr h
    · exact hc h
  simp [sendMessage, h1, hv]

theorem sendMessageValid_messages (userId r content : String)
    (attachments : List String) (onlineUsers : List (String × Nat)) (now : Nat)
    (st : Store) :
    (sendMessageValid userId r content attachments onlineUsers now st).1.messages
      = st.messages ++
        [(saveMessage ⟨0, none, userId, r, content, attachments, false, none, now⟩
            now st).2] := by
  simp only [sendMessageValid]
  rw [upsertConversation_messages, saveMessage_messages]

theorem upsertConversation_found_mem (s r p : String) (now : Nat) (st : Store)
    (c : Conv) (hf : findConversationFor s r st.conversations = some c) :
    { c with lastMessage := p, lastMessageFrom := some s, lastMessageAt := now }
      ∈ (upsertConversation s r p now st).1.conversations := by
  have hc : c ∈ st.conversations := List.mem_of_find?_eq_some hf
  simp only [upsertConversation]
  rw [hf]
  exact List.mem_map.mpr ⟨c, hc, by rw [if_pos rfl]⟩

/- ### Claim theorems -/

/-- C1 (evaluation of the code at the failing schedule): the POST / route and
the Message pre-save hook associate the conversation with a
`Conversation.findOne` followed by a separate conditional insert; under the
interleaving in which both concurrent requests run their `findOne` before
either insert, two Conversation documents for the same unordered pair are
created from an empty store. The `sendMessage` handler's single
`findOneAndUpdate` upsert, run twice in any order, leaves exactly one. -/
theorem findThenCreate_duplicate_conversations :
    countConversationsFor "u1" "u2" (interleavedFindThenCreate "u1" "u2" 0 []) = 2 ∧
    countConversationsFor "u1" "u2"
      ((interleavedUpsert "u1" "u2" "hi" 0 emptyStore).conversations) = 1 := by
  decide

/-- C6: a conversation-dialect send whose `conversationId` matches no stored
conversation emits a not-found error to the sender and leaves the store —
in particular the Message collection — unchanged. -/
theorem newMessage_not_found (userId : String) (cid : Nat) (text : String)
    (onlineUsers : List (String × Nat)) (now : Nat) (st : Store)
    (ht : strTrim text ≠ "")
    (hn : st.conversations.find? (fun c => c.id == cid) = none) :
    (newMessageHandler userId (some cid) text onlineUsers now st).1 = st ∧
    (newMessageHandler userId (some cid) text onlineUsers now st).2 =
      [⟨"error", .senderSocket, .errMsg "Conversation not found"⟩] := by
  have htext : ¬(text = "" ∨ strTrim text = "") := by
    rintro (h | h)
    · subst h; exact ht (by decide)
    · exact ht h
  simp [newMessageHandler, htext, hn]

/-- Witness for C6 at a concrete input: conversation id 5 does not exist in
the empty store. -/
theorem newMessage_not_found_witness :
    (newMessageHandler "u1" (some 5) "yo" [] 0 emptyStore).1 = emptyStore ∧
    (newMessageHandler "u1" (some 5) "yo" [] 0 emptyStore).2 =
      [⟨"error", .senderSocket, .errMsg "Conversation not found"⟩] :=
  newMessage_not_found "u1" 5 "yo" [] 0 emptyStore (by decide) (by decide)

/-- C7 counterexample: the claim that the manager "never reaches a state from
which no further connection attempt can occur" is false. Starting from a live
socket with a zero attempt counter, six consecutive `attemptReconnect` calls
whose final fallback probe fails (five below-cap timer schedules, then the
at-cap fallback failure) land in a state with no socket object and no pending
timer: nothing in the manager can fire another attempt. -/
theorem reconnect_dead_state_counterexample :
    canAutonomouslyRetry
      (attemptReconnect .failure (attemptReconnect .failure (attemptReconnect .failure
        (attemptReconnect .failure (attemptReconnect .failure (attemptReconnect .failure
          ⟨0, none, .disconnected, true⟩)))))) = false := by
  decide

/-- C7 amended: below the cap, each `attemptReconnect` increments the counter
and schedules a delay of `RECONNECT_INTERVAL * 2 ^ (n - 1)` for the new
attempt number `n`; the counter never exceeds `MAX_RECONNECT_ATTEMPTS` (5);
at the cap a successful fallback probe resets the counter to 0 and
reinitializes a socket, but a failed probe clears the timer and destroys the
socket, so the manager schedules no further autonomous attempt. -/
theorem attemptReconnect_backoff_cap (s : ManagerState) (fb : FallbackOutcome) :
    (s.reconnectAttempts < MAX_RECONNECT_ATTEMPTS →
      (attemptReconnect fb s).reconnectAttempts = s.reconnectAttempts + 1 ∧
      (attemptReconnect fb s).reconnectTimer =
        some (RECONNECT_INTERVAL * 2 ^ ((s.reconnectAttempts + 1) - 1))) ∧
    (s.reconnectAttempts ≤ MAX_RECONNECT_ATTEMPTS →
      (attemptReconnect fb s).reconnectAttempts ≤ MAX_RECONNECT_ATTEMPTS) ∧
    (MAX_RECONNECT_ATTEMPTS ≤ s.reconnectAttempts →
      (attemptReconnect .success s).reconnectAttempts = 0 ∧
      (attemptReconnect .success s).socketExists = true ∧
      (attemptReconnect .failure s).reconnectTimer = none ∧
      (attemptReconnect .failure s).socketExists = false ∧
      canAutonomouslyRetry (attemptReconnect .failure s) = false) := by
  refine ⟨?_, ?_, ?_⟩
  · intro h
    unfold attemptReconnect
    rw [if_neg (by omega)]
    exact ⟨rfl, by simp⟩
  · intro h
    by_cases hc : s.reconnectAttempts ≥ MAX_RECONNECT_ATTEMPTS
    · cases fb
      · simp [attemptReconnect, if_pos hc]
      · simp [attemptReconnect, if_pos hc]
        omega
    · unfold attemptReconnect
      rw [if_neg hc]
      show s.reconnectAttempts + 1 ≤ MAX_RECONNECT_ATTEMPTS
      omega
  · intro h
    refine ⟨?_, ?_, ?_, ?_, ?_⟩ <;>
      simp [attemptReconnect, if_pos h, canAutonomouslyRetry]

/-- Witness for C7's amended theorem at attempt number 3: the scheduled delay
is 1000 * 2^2 = 4000 ms and the counter becomes 3. -/
theorem attemptReconnect_backoff_cap_witness :
    (attemptReconnect .failure ⟨2, none, .disconnected, true⟩).reconnectAttempts = 3 ∧
    (attemptReconnect .failure ⟨2, none, .disconnected, true⟩).reconnectTimer
      = some 4000 := by
  have h := (attemptReconnect_backoff_cap ⟨2, none, .disconnected, true⟩ .failure).1
    (by decide)
  refine ⟨h.1, ?_⟩
  rw [h.2]
  decide

/-- C9: the presence registry is last-connect-wins (a second connection by the
same user overwrites the stored handle), and the disconnect cleanup deletes by
user id without checking which connection's handle is stored — so when the
first connection's disconnect fires after the second connect, the presence
entry for the still-live second connection is removed and lookup reports the
user absent. -/
theorem presence_overwrite_then_stale_disconnect :
    presenceOnConnect "u1" 2 (presenceOnConnect "u1" 1 []) = [("u1", 2)] ∧
    mapGet "u1" (presenceOnDisconnect "u1"
      (presenceOnConnect "u1" 2 (presenceOnConnect "u1" 1 []))) = none := by
  decide

/-- C10: for any message matched by the id list, the HTTP mark-read route sets
`read` to true while leaving `readAt` exactly as it was (the record update
keeps `m.readAt`, which is null for never-read messages), whereas the socket
`markRead` handler sets both `read` and `readAt`. -/
theorem markRead_http_vs_socket (messageIds : List Nat) (now : Nat) (st : Store)
    (m : Msg) (hne : messageIds.isEmpty = false) (hm : m ∈ st.messages)
    (hid : m.id ∈ messageIds) :
    { m with read := true } ∈ (markReadHTTP messageIds st).1.messages ∧
    { m with read := true, readAt := some now }
      ∈ (markReadSocket messageIds now st).messages := by
  constructor
  · have hred : (markReadHTTP messageIds st).1.messages
        = st.messages.map (fun x =>
            if x.id ∈ messageIds then { x with read := true } else x) := by
      simp [markReadHTTP, hne]
    rw [hred]
    exact List.mem_map.mpr ⟨m, hm, by rw [if_pos hid]⟩
  · show _ ∈ st.messages.map (fun x =>
      if x.id ∈ messageIds then { x with read := true, readAt := some now } else x)
    exact List.mem_map.mpr ⟨m, hm, by rw [if_pos hid]⟩

/-- Witness for C10 on the concrete unread message: after the HTTP route the
message is read with `readAt` still null; after the socket handler `readAt`
is set. -/
theorem markRead_http_vs_socket_witness :
    { msgUnread with read := true } ∈ (markReadHTTP [0] storeFetch).1.messages ∧
    { msgUnread with read := true, readAt := some 9 }
      ∈ (markReadSocket [0] 9 storeFetch).messages :=
  markRead_http_vs_socket [0] 9 storeFetch msgUnread (by decide) (by decide)
    (by decide)

/-- C3 counterexample: the claim that fetching history as participant P marks
every message not sent by P as read with a non-null `readAt` is false. The
HTTP mark-read route leaves a message with `read = true` and `readAt = null`;
the fetch's update filters on `read: false`, skips that message, and its
`readAt` stays null after the fetch. -/
theorem fetch_readAt_counterexample :
    ¬ (∀ m ∈ (fetchConversationMessages "p1" 0 5 storeFetchRead).1.messages,
        m.conversation = some 0 → m.sender ≠ "p1" → m.readAt ≠ none) := by
  decide

/-- C3 amended: fetching a conversation's history as participant P marks every
*previously-unread* (`read = false`) message of the conversation not sent by P
as `read = true` with `readAt = now`, leaves every other message untouched
(in particular an already-read message keeps its possibly-null `readAt`), and
resets the conversation's `unreadCount` to 0; afterwards every message in the
conversation not sent by P has `read = true`. -/
theorem fetch_marks_unread_and_resets (uid : String) (cid now : Nat) (st : Store)
    (hok : (st.conversations.find? (fun c =>
      c.id == cid && c.participants.contains uid)).isSome = true) :
    (∀ m ∈ st.messages, m.conversation = some cid → m.sender ≠ uid →
      m.read = false →
      { m with read := true, readAt := some now }
        ∈ (fetchConversationMessages uid cid now st).1.messages) ∧
    (∀ m ∈ (fetchConversationMessages uid cid now st).1.messages,
      m.conversation = some cid → m.sender ≠ uid → m.read = true) ∧
    (∀ c ∈ (fetchConversationMessages uid cid now st).1.conversations,
      c.id = cid → c.unreadCount = 0) ∧
    (∀ m ∈ st.messages,
      ¬(m.conversation = some cid ∧ m.sender ≠ uid ∧ m.read = false) →
      m ∈ (fetchConversationMessages uid cid now st).1.messages) := by
  obtain ⟨c0, hc0⟩ := Option.isSome_iff_exists.mp hok
  have hred : (fetchConversationMessages uid cid now st).1 =
      { st with
        messages := st.messages.map (fun m =>
          if m.conversation = some cid ∧ m.sender ≠ uid ∧ m.read = false then
            { m with read := true, readAt := some now }
          else m),
        conversations := st.conversations.map (fun c =>
          if c.id = cid then { c with unreadCount := 0 } else c) } := by
    simp only [fetchConversationMessages]
    rw [hc0]
  rw [hred]
  refine ⟨?_, ?_, ?_, ?_⟩
  · intro m hm h1 h2 h3
    exact List.mem_map.mpr ⟨m, hm, by rw [if_pos ⟨h1, h2, h3⟩]⟩
  · intro m2 hm2 h1 h2
    obtain ⟨m, hm, hf⟩ := List.mem_map.mp hm2
    by_cases hcond : m.conversation = some cid ∧ m.sender ≠ uid ∧ m.read = false
    · rw [if_pos hcond] at hf
      rw [← hf]
    · rw [if_neg hcond] at hf
      subst hf
      rcases Bool.eq_false_or_eq_true m.read with hr | hr
      · exact hr
      · exact absurd ⟨h1, h2, hr⟩ hcond
  · intro c2 hm2 h1
    obtain ⟨c, hc, hf⟩ := List.mem_map.mp hm2
    by_cases hcond : c.id = cid
    · rw [if_pos hcond] at hf
      rw [← hf]
    · rw [if_neg hcond] at hf
      subst hf
      exact absurd h1 hcond
  · intro m hm hcond
    exact List.mem_map.mpr ⟨m, hm, by rw [if_neg hcond]⟩

/-- Witness for C3's amended theorem on the concrete store: the unread message
from "p2" is marked read with `readAt = 5` by the fetch as "p1". -/
theorem fetch_marks_unread_witness :
    { msgUnread with read := true, readAt := some 5 }
      ∈ (fetchConversationMessages "p1" 0 5 storeFetch).1.messages :=
  (fetch_marks_unread_and_resets "p1" 0 5 storeFetch (by decide)).1
    msgUnread (by decide) (by decide) (by decide) (by decide)

/-- C8: on every connect event the manager resets the reconnect-attempt
counter to 0, keeps its listener registry intact, and — provided no two
registry entries carry the same (event, callback) pair — every listener added
via `addSocketListener` and not removed ends up attached to the live socket
exactly once for its event: `reapplyEventListeners` first detaches everything
registered for those events, so neither a pre-connect attach nor a previous
reapply can leave a duplicate, and every registry entry is re-attached. -/
theorem connect_reapplies_each_listener_once (s : ClientSocketState)
    (hnd : (s.registry.map (fun l => (l.event, l.callback))).Nodup) :
    (connectEvent s).reconnectAttempts = 0 ∧
    (connectEvent s).registry = s.registry ∧
    ∀ l ∈ s.registry,
      (connectEvent s).attached.count (l.event, l.callback) = 1 := by
  refine ⟨rfl, rfl, ?_⟩
  intro l hl
  have hmem : (l.event, l.callback)
      ∈ s.registry.map (fun x => (x.event, x.callback)) :=
    List.mem_map_of_mem _ hl
  have h1 : (s.registry.map (fun x => (x.event, x.callback))).count
      (l.event, l.callback) = 1 :=
    count_one_of_nodup hnd hmem
  have h0 : ((s.attached.filter (fun p =>
      !(s.registry.any (fun x => x.event == p.1)))).count (l.event, l.callback)) = 0 := by
    rw [List.count_eq_zero]
    intro hmemf
    have hp := (List.mem_filter.mp hmemf).2
    simp only [Bool.not_eq_true', List.any_eq_false, beq_iff_eq] at hp
    exact hp l hl rfl
  show ((s.attached.filter _) ++ s.registry.map _).count (l.event, l.callback) = 1
  rw [List.count_append, h0, h1]

/-- Witness for C8 on the concrete registry built by the manager's own
operations (one listener added before the socket existed, one after): after a
connect event the counter is 0 and the pre-connect listener is attached
exactly once. -/
theorem connect_reapplies_witness :
    (connectEvent clientC8).reconnectAttempts = 0 ∧
    (connectEvent clientC8).attached.count ("newMessage", 7) = 1 := by
  have h := connect_reapplies_each_listener_once clientC8 (by decide)
  exact ⟨h.1, h.2.2 ⟨"newMessage", 7, 0⟩ (by decide)⟩

/-- C2: the direct-send handler emits a validation error and persists nothing
when the receiver is missing, empty, or not a well-formed ObjectId, or when
the trimmed content is empty and the attachments list is empty; on every other
input — in particular non-empty attachments with empty content — exactly one
Message is appended, with the caller as sender and the submitted receiver,
content and attachments. -/
theorem sendMessage_validation (userId : String) (receiver : Option String)
    (content : String) (attachments : List String)
    (onlineUsers : List (String × Nat)) (now : Nat) (st : Store) :
    ((receiverFalsy receiver = true ∨ (strTrim content = "" ∧ attachments = []) ∨
        (∃ r, receiver = some r ∧ isValidObjectId r = false)) →
      (sendMessage userId receiver content attachments onlineUsers now st).1 = st ∧
      ∃ e, (sendMessage userId receiver content attachments onlineUsers now st).2
          = [⟨"error", .senderSocket, .errMsg e⟩]) ∧
    (∀ r, receiver = some r → r ≠ "" →
      ¬(strTrim content = "" ∧ attachments = []) → isValidObjectId r = true →
      ∃ m, (sendMessage userId receiver content attachments onlineUsers now st).1.messages
          = st.messages ++ [m] ∧
        m.sender = userId ∧ m.receiver = r ∧ m.content = content ∧
        m.attachments = attachments) := by
  constructor
  · rintro (hfal | hempty | ⟨r, rfl, hinv⟩)
    · rcases receiver with _ | r
      · exact ⟨rfl, _, rfl⟩
      · have hre : r = "" := by simpa [receiverFalsy] using hfal
        simp only [sendMessage]
        rw [if_pos (Or.inl hre)]
        exact ⟨rfl, _, rfl⟩
    · rcases receiver with _ | r
      · exact ⟨rfl, _, rfl⟩
      · simp only [sendMessage]
        rw [if_pos (Or.inr hempty)]
        exact ⟨rfl, _, rfl⟩
    · by_cases hcond : r = "" ∨ (strTrim content = "" ∧ attachments = [])
      · simp only [sendMessage]
        rw [if_pos hcond]
        exact ⟨rfl, _, rfl⟩
      · simp only [sendMessage]
        rw [if_neg hcond, if_pos hinv]
        exact ⟨rfl, _, rfl⟩
  · rintro r rfl hrne hcont hval
    rw [sendMessage_valid_red userId r content attachments onlineUsers now st
      hrne hcont hval]
    refine ⟨(saveMessage ⟨0, none, userId, r, content, attachments, false, none, now⟩
        now st).2,
      sendMessageValid_messages userId r content attachments onlineUsers now st,
      (saveMessage_fields _ _ _).1, (saveMessage_fields _ _ _).2.1,
      (saveMessage_fields _ _ _).2.2.1, (saveMessage_fields _ _ _).2.2.2⟩

/-- Witness for C2 at a concrete input with empty content and a non-empty
attachments list: the message is persisted with the caller as sender. -/
theorem sendMessage_validation_witness :
    ∃ m, (sendMessage uidA (some uidB) "" ["img.png"] [] 0 emptyStore).1.messages
        = emptyStore.messages ++ [m] ∧
      m.sender = uidA ∧ m.receiver = uidB ∧ m.content = "" ∧
      m.attachments = ["img.png"] :=
  (sendMessage_validation uidA (some uidB) "" ["img.png"] [] 0 emptyStore).2
    uidB rfl (by decide) (by decide) (by decide)

/-- C4: on a valid direct send whose recipient has a handle in the presence
registry, the handler emits the saved message to that direct handle
(`receiveMessage` to the socket id) and, in addition, broadcasts the same
saved message to the recipient's room (`newMessage` to the room named by the
recipient's id, from the unconditional broadcast at the end of the handler) —
both firings occur on the same successful send. -/
theorem sendMessage_dual_delivery (userId r content : String)
    (attachments : List String) (onlineUsers : List (String × Nat)) (now : Nat)
    (st : Store) (sid : Nat) (hr : r ≠ "")
    (hcont : ¬(strTrim content = "" ∧ attachments = []))
    (hval : isValidObjectId r = true)
    (hsid : mapGet r onlineUsers = some sid) :
    ∃ m cid,
      (sendMessage userId (some r) content attachments onlineUsers now st).1.messages
        = st.messages ++ [m] ∧
      (⟨"receiveMessage", .socketOf sid, .message m⟩ : Emission)
        ∈ (sendMessage userId (some r) content attachments onlineUsers now st).2 ∧
      (⟨"newMessage", .room r, .convMessage cid m⟩ : Emission)
        ∈ (sendMessage userId (some r) content attachments onlineUsers now st).2 := by
  rw [sendMessage_valid_red userId r content attachments onlineUsers now st
    hr hcont hval]
  refine ⟨(saveMessage ⟨0, none, userId, r, content, attachments, false, none, now⟩
      now st).2,
    (upsertConversation userId r (sentPreview content attachments) now
      (saveMessage ⟨0, none, userId, r, content, attachments, false, none, now⟩
        now st).1).2,
    sendMessageValid_messages userId r content attachments onlineUsers now st,
    ?_, ?_⟩
  · simp [sendMessageValid, hsid]
  · simp [sendMessageValid, hsid]

/-- Witness for C4 at a concrete input with the recipient online at socket
42: both the direct-handle emission and the room broadcast occur. -/
theorem sendMessage_dual_delivery_witness :
    ∃ m cid,
      (sendMessage uidA (some uidB) "hello" [] [(uidB, 42)] 0 emptyStore).1.messages
        = emptyStore.messages ++ [m] ∧
      (⟨"receiveMessage", .socketOf 42, .message m⟩ : Emission)
        ∈ (sendMessage uidA (some uidB) "hello" [] [(uidB, 42)] 0 emptyStore).2 ∧
      (⟨"newMessage", .room uidB, .convMessage cid m⟩ : Emission)
        ∈ (sendMessage uidA (some uidB) "hello" [] [(uidB, 42)] 0 emptyStore).2 :=
  sendMessage_dual_delivery uidA uidB "hello" [] [(uidB, 42)] 0 emptyStore 42
    (by decide) (by decide) (by decide) (by decide)

/-- C5: a successful conversation-dialect send updates the stored conversation
by setting the preview, sender and timestamp fields and incrementing
`unreadCount` by exactly 1, while a successful direct send on an existing
conversation updates only the preview, sender and timestamp fields — the
record updates in the two conclusions leave `participants` untouched in both
dialects and leave `unreadCount` untouched in the direct-send dialect. -/
theorem unreadCount_dialect_asymmetry (userId text content r : String)
    (cid : Nat) (attachments : List String)
    (onlineUsers : List (String × Nat)) (now : Nat) (st : Store) (c : Conv) :
    (st.conversations.find? (fun x => x.id == cid) = some c →
      strTrim text ≠ "" →
      ∀ rec, c.participants.find? (fun p => !(p == userId)) = some rec →
      { c with lastMessage := strTrim text, lastMessageFrom := some userId,
               lastMessageAt := now, unreadCount := c.unreadCount + 1 }
        ∈ (newMessageHandler userId (some cid) text onlineUsers now st).1.conversations) ∧
    (findConversationFor userId r st.conversations = some c →
      r ≠ "" → ¬(strTrim content = "" ∧ attachments = []) →
      isValidObjectId r = true →
      { c with lastMessage := sentPreview content attachments,
               lastMessageFrom := some userId, lastMessageAt := now }
        ∈ (sendMessage userId (some r) content attachments onlineUsers now st).1.conversations) := by
  constructor
  · intro hfind htr rec hrec
    have htext : ¬(text = "" ∨ strTrim text = "") := by
      rintro (h | h)
      · subst h; exact htr (by decide)
      · exact htr h
    have hcmem : c ∈ st.conversations := List.mem_of_find?_eq_some hfind
    have hcid : c.id = cid := by
      have := List.find?_some hfind
      simpa using this
    have hsc : (saveMessage
        ⟨0, some cid, userId, rec, strTrim text, [], false, none, now⟩
        now st).1.conversations = st.conversations := by
      rw [saveMessage_conversations, preSaveHook_conv_some _ _ _ cid rfl]
    simp only [newMessageHandler, if_neg htext, hfind, hrec]
    show _ ∈ ((saveMessage _ now st).1.conversations.map _)
    rw [hsc]
    exact List.mem_map.mpr ⟨c, hcmem, by rw [if_pos hcid]⟩
  · intro hf hrne hcont hval
    rw [sendMessage_valid_red userId r content attachments onlineUsers now st
      hrne hcont hval]
    have hsc : (saveMessage
        ⟨0, none, userId, r, content, attachments, false, none, now⟩
        now st).1.conversations = st.conversations := by
      rw [saveMessage_conversations, preSaveHook_conv_found _ _ _ c rfl hf]
    have hf1 : findConversationFor userId r
        (saveMessage ⟨0, none, userId, r, content, attachments, false, none, now⟩
          now st).1.conversations = some c := by
      rw [hsc]; exact hf
    show _ ∈ (upsertConversation userId r (sentPreview content attachments) now
      (saveMessage ⟨0, none, userId, r, content, attachments, false, none, now⟩
        now st).1).1.conversations
    exact upsertConversation_found_mem _ _ _ _ _ _ hf1

/-- Witness for C5 on the concrete conversation between `uidA` and `uidB`
carrying `unreadCount = 2`: the conversation-dialect send stores
`unreadCount = 3`, the direct send stores the preview fields with
`unreadCount` still 2. -/
theorem unreadCount_dialect_asymmetry_witness :
    { convDlg with lastMessage := strTrim "hey", lastMessageFrom := some uidA,
                   lastMessageAt := 9, unreadCount := convDlg.unreadCount + 1 }
      ∈ (newMessageHandler uidA (some 7) "hey" [] 9 storeDlg).1.conversations ∧
    { convDlg with lastMessage := sentPreview "yo" [],
                   lastMessageFrom := some uidA, lastMessageAt := 9 }
      ∈ (sendMessage uidA (some uidB) "yo" [] [] 9 storeDlg).1.conversations := by
  have h := unreadCount_dialect_asymmetry uidA "hey" "yo" uidB 7 [] [] 9
    storeDlg convDlg
  exact ⟨h.1 (by decide) (by decide) uidB (by decide),
         h.2 (by decide) (by decide) (by decide) (by decide)⟩

end Peteat
